import Mathlib

/-!
# DreamTeller — verification of the story-generation core

Shallow embedding of the DreamTeller repository (Python) in Lean 4:

* Python `str` values are modelled as `List Char` (`PyStr`); `String`
  is used for opaque text fields that no claim inspects character-wise.
* The scene parser embedded below follows
  `Backend/services/fal_service.py`, `FALService.generate_story_scenes`
  (lines 184–213); the identical parsing code appears in
  `AI-core/test.py`, `AI_Generation.generate_story_scenes` (484–523).
* The archive codec follows
  `Backend/services/story_storage_service.py` (`save_story`,
  `load_story`) and, for the desktop client, `AI-core/test.py`
  (`StoryStorage.save_story` / `load_story`).
* The orchestrator follows `FALService.generate_story` and its helper
  methods; the remote FAL endpoints are modelled as oracle functions
  (`Providers`), `none` standing for a raised provider exception or an
  empty/You-shaped response that the code treats as failure.
-/

set_option autoImplicit false

/-- Python strings are sequences of characters. -/
abbrev PyStr := List Char

/-- Python's notion of whitespace for `str.strip()` and the regex class
`\s` (restricted to the ASCII whitespace characters, which are the only
ones that occur in this code base's data). -/
def pyIsSpace (c : Char) : Bool :=
  c = ' ' || c = '\t' || c = '\n' || c = '\r' || c = '\x0b' || c = '\x0c'

/-- Left part of Python `str.strip()`. -/
def stripLeft (s : PyStr) : PyStr := s.dropWhile pyIsSpace

/-- Right part of Python `str.strip()`. -/
def stripRight (s : PyStr) : PyStr := (s.reverse.dropWhile pyIsSpace).reverse

/-- Python `str.strip()`. -/
def pyStrip (s : PyStr) : PyStr := stripRight (stripLeft s)

/-- Python `text.split('\n')`. -/
def splitLines : PyStr → List PyStr
  | [] => [[]]
  | c :: cs =>
    if c = '\n' then [] :: splitLines cs
    else
      match splitLines cs with
      | [] => [[c]]
      | l :: ls => (c :: l) :: ls

/-- The literal word the scene-marker regex `SCENE\s+\d+:?` looks for.
The regex is compiled without `re.IGNORECASE`, so the match is
case-sensitive. -/
def sceneKey : PyStr := ['S', 'C', 'E', 'N', 'E']

/-- After the literal `SCENE`, the regex requires `\s+\d` — a nonempty
run of whitespace immediately followed by a decimal digit.  (The
trailing `\d*:?` of the pattern is optional and cannot affect whether a
match exists.) -/
def markerAfter (rest : PyStr) : Bool :=
  !(rest.takeWhile pyIsSpace).isEmpty &&
    (match rest.dropWhile pyIsSpace with
     | d :: _ => d.isDigit
     | [] => false)

/-- `re.search(r'SCENE\s+\d+:?', line)` — an *unanchored* search: the
pattern may occur anywhere in the line. -/
def hasMarker : PyStr → Bool
  | [] => false
  | c :: cs =>
    (sceneKey.isPrefixOf (c :: cs) && markerAfter ((c :: cs).drop 5)) || hasMarker cs

/-- Remainder of a Python `line.split(':', 1)[1]`, when a colon exists. -/
def afterFirstColon : PyStr → Option PyStr
  | [] => none
  | c :: cs => if c = ':' then some cs else afterFirstColon cs

/-- `line.split(':', 1)[1].strip() if ':' in line else ""` — the text
seeding a new scene when a marker line is found. -/
def seedContent (line : PyStr) : PyStr :=
  match afterFirstColon line with
  | some r => pyStrip r
  | none => []

/-- The accumulator of the scene-parsing loop in
`generate_story_scenes`: the scenes flushed so far, the scene text
under construction, and the `scene_started` flag. -/
structure ParseState where
  scenes : List PyStr
  current : PyStr
  started : Bool
deriving Repr, DecidableEq

/-- One iteration of `for line in scene_text.split('\n')` in
`generate_story_scenes` (fal_service.py lines 192–203). -/
def parseStep (st : ParseState) (rawLine : PyStr) : ParseState :=
  let line := pyStrip rawLine
  if hasMarker line then
    { scenes := if st.started ∧ st.current ≠ [] then st.scenes ++ [pyStrip st.current] else st.scenes
      current := seedContent line
      started := true }
  else if st.started ∧ line ≠ [] then
    { st with current := st.current ++ (' ' :: line) }
  else st

/-- The scenes produced by the parsing loop plus the final flush
(`if scene_started and current_scene: scenes.append(...)`), before the
length-adjustment policies. -/
def parsedScenes (text : PyStr) : List PyStr :=
  let st := (splitLines text).foldl parseStep ⟨[], [], false⟩
  if st.started ∧ st.current ≠ [] then st.scenes ++ [pyStrip st.current] else st.scenes

/-- Decimal digit characters, as produced by Python's `str(n)`.
Only ever applied to values `< 10`. -/
def digitChar : Nat → Char
  | 0 => '0' | 1 => '1' | 2 => '2' | 3 => '3' | 4 => '4'
  | 5 => '5' | 6 => '6' | 7 => '7' | 8 => '8' | _ => '9'

/-- Accumulator-style decimal rendering of a natural number, with
explicit fuel so that the definition is structurally recursive (the
fuel `n` always suffices, since a number has at most `n` digits). -/
def natCharsGo : Nat → Nat → PyStr → PyStr
  | 0, _, acc => acc
  | _ + 1, 0, acc => acc
  | f + 1, n + 1, acc => natCharsGo f ((n + 1) / 10) (digitChar ((n + 1) % 10) :: acc)

/-- Python `str(n)` for a natural number: standard decimal notation. -/
def natChars (n : Nat) : PyStr := if n = 0 then ['0'] else natCharsGo n n []

/-- The placeholder scene `f"Scene {k} description not available."`
appended by the under-production fallback. -/
def placeholder (k : Nat) : PyStr :=
  "Scene ".data ++ natChars k ++ " description not available.".data

/-- Body of the `while len(scenes) < num_scenes` padding loop of
`generate_story_scenes`, with explicit fuel so that it is structurally
recursive (`n - scenes.length` iterations always suffice). -/
def padGo (n : Nat) : Nat → List PyStr → List PyStr
  | 0, scenes => scenes
  | f + 1, scenes =>
    if scenes.length < n then padGo n f (scenes ++ [placeholder (scenes.length + 1)])
    else scenes

/-- The `while len(scenes) < num_scenes` padding loop of
`generate_story_scenes` (fal_service.py lines 210–211). -/
def padScenes (n : Nat) (scenes : List PyStr) : List PyStr :=
  padGo n (n - scenes.length) scenes

/-- The scene parser of `FALService.generate_story_scenes`
(fal_service.py lines 184–213), applied to the raw LLM output: parse
marker-delimited scenes, pad with placeholders up to `num_scenes`, and
truncate to the first `num_scenes` (`return scenes[:num_scenes]`). -/
def parse_scenes (text : PyStr) (num_scenes : Nat) : List PyStr :=
  (padScenes num_scenes (parsedScenes text)).take num_scenes

/-! ## Data model (`Backend/models/story.py`) -/

/-- `StoryPrompt` (story.py lines 7–15).  `mainCharacter` and `setting`
are `Optional[str]`; text fields are opaque here. -/
structure StoryPrompt where
  idea : String
  genre : String
  tone : String
  mainCharacter : Option String
  setting : Option String
  artStyle : String
  numScenes : Nat
deriving Repr, DecidableEq

/-- `Scene` (story.py lines 17–21). -/
structure Scene where
  text : String
  imageUrl : Option String
  imagePrompt : Option String
deriving Repr, DecidableEq

/-- `Story` (story.py lines 23–30).  `created_at` is the ISO-8601
rendering of the creation timestamp (Python's
`datetime.fromisoformat(d.isoformat()) == d`, so serializing the
timestamp by its ISO string is lossless). -/
structure Story where
  id : String
  title : String
  prompt : StoryPrompt
  scenes : List Scene
  created_at : String
  updated_at : Option String
deriving Repr, DecidableEq

/-! ## Archive codec (`Backend/services/story_storage_service.py`) -/

/-- One entry of `metadata["scenes"]` as written by
`StoryStorageService.save_story` (lines 108–129): always `index`,
`text`, `imageUrl`, `imagePrompt`; the key `image_file` is added only
when the image bytes were downloaded successfully. -/
structure SceneRecord where
  index : Nat
  text : String
  imageUrl : Option String
  imagePrompt : String
  image_file : Option String
deriving Repr, DecidableEq

/-- The `metadata["prompt"]` record (save_story lines 87–95): optional
prompt fields are written as `story.prompt.mainCharacter or ""`, i.e.
`None` is replaced by the empty string. -/
structure PromptRecord where
  idea : String
  genre : String
  tone : String
  mainCharacter : String
  setting : String
  artStyle : String
  numScenes : Nat
deriving Repr, DecidableEq

/-- The `metadata.json` document of a `.story` archive. -/
structure Metadata where
  id : String
  title : String
  prompt : PromptRecord
  num_scenes : Nat
  creation_date : String
  scenes : List SceneRecord
deriving Repr, DecidableEq

/-- A `.story` zip archive: the metadata document plus the binary
entries (path ↦ bytes).  `save_story` always writes an `images/.keep`
entry first.  Image bytes are opaque, modelled as strings. -/
structure Archive where
  metadata : Metadata
  images : List (String × String)
deriving Repr, DecidableEq

/-- `StoryStorageService.download_image` (lines 34–55): one attempt
with a 30 s timeout and, on failure, one retry with a 60 s timeout.
The network is an oracle `net attempt url`; `none` models a raised
`httpx` error. -/
def download_image (net : Nat → String → Option String) (url : String) : Option String :=
  match net 0 url with
  | some bytes => some bytes
  | none => net 1 url

/-- The per-scene image path `f"images/scene_{i}.png"`. -/
def mkScenePath (i : Nat) : String :=
  String.mk ("images/scene_".data ++ natChars i ++ ".png".data)

/-- One iteration of the scene loop in `save_story` (lines 107–129),
producing the scene's metadata record. -/
def save_scene_record (net : Nat → String → Option String) (i : Nat) (sc : Scene) :
    SceneRecord :=
  { index := i
    text := sc.text
    imageUrl := sc.imageUrl
    imagePrompt := sc.imagePrompt.getD ""
    image_file :=
      match sc.imageUrl with
      | some url =>
        match download_image net url with
        | some _ => some (mkScenePath i)
        | none => none
      | none => none }

/-- `StoryStorageService.save_story` (lines 57–148), at the level of
archive content.  Filesystem errors (the only `raise` path) and the
filename derivation are outside the model; `story.created_at` is
always set (pydantic default factory), so the
`if story.created_at else now()` branch always takes the first arm. -/
def save_story (net : Nat → String → Option String) (story : Story) : Archive :=
  { metadata :=
      { id := story.id
        title := story.title
        prompt :=
          { idea := story.prompt.idea
            genre := story.prompt.genre
            tone := story.prompt.tone
            mainCharacter := story.prompt.mainCharacter.getD ""
            setting := story.prompt.setting.getD ""
            artStyle := story.prompt.artStyle
            numScenes := story.prompt.numScenes }
        num_scenes := story.scenes.length
        creation_date := story.created_at
        scenes := story.scenes.enum.map fun p => save_scene_record net p.1 p.2 }
    images :=
      ("images/.keep", "") ::
        story.scenes.enum.filterMap fun p =>
          (p.2.imageUrl.bind (download_image net)).map fun data => (mkScenePath p.1, data) }

/-- Scene reconstruction in `StoryStorageService.load_story`
(lines 230–245).  NOTE: the loop `for scene_data in metadata['scenes']`
iterates in archive write order — there is no sorting by `index` in the
backend loader.  The `if 'image_file' in scene_data` branch reassigns
`image_url = scene_data.get('imageUrl')`, a no-op. -/
def load_scene (r : SceneRecord) : Scene :=
  { text := r.text
    imageUrl := r.imageUrl
    imagePrompt := some r.imagePrompt }

/-- `StoryStorageService.load_story` (lines 194–257), given the parsed
`metadata.json`.  File-not-found and missing-metadata failures are
outside this model (every `Metadata` value has all fields); pydantic
turns the stored `""` strings for `mainCharacter`/`setting` back into
`Some ""`, not `None`. -/
def load_story (md : Metadata) : Story :=
  { id := md.id
    title := md.title
    prompt :=
      { idea := md.prompt.idea
        genre := md.prompt.genre
        tone := md.prompt.tone
        mainCharacter := some md.prompt.mainCharacter
        setting := some md.prompt.setting
        artStyle := md.prompt.artStyle
        numScenes := md.prompt.numScenes }
    scenes := md.scenes.map load_scene
    created_at := md.creation_date
    updated_at := none }

/-! ## Desktop-client loader (`AI-core/test.py`, `StoryStorage`) -/

/-- One entry of `metadata["scenes"]` as written by the desktop
client's `StoryStorage.save_story` (test.py lines 122–129). -/
structure AISceneRecord where
  index : Nat
  text : String
  image_file : Option String
  image_url : Option String
deriving Repr, DecidableEq

/-- The scene-text extraction of the desktop client's
`StoryStorage.load_story` (test.py lines 194–198):
`for scene in sorted(metadata["scenes"], key=lambda x: x["index"])`.
Python's `sorted` is a stable sort by the key; a stable insertion sort
over the same total preorder produces the identical list. -/
def aicore_load_scenes (records : List AISceneRecord) : List String :=
  (records.insertionSort (fun a b => a.index ≤ b.index)).map (·.text)


/-! ## Orchestrator (`Backend/services/fal_service.py`, `FALService`) -/

/-- Arguments of the `fal-ai/flux/schnell` call in
`FALService.generate_image` (lines 288–301). -/
structure ImageArgs where
  prompt : String
  width : Nat
  height : Nat
  steps : Nat
  seed : Nat
deriving Repr, DecidableEq

/-- The remote FAL endpoints, as oracles.  `llm` is `fal-ai/any-llm`
(prompt ↦ `result["output"]`), `videoPrompt` is
`fal-ai/video-prompt-generator` (input concept ↦ `result["prompt"]`),
`image` is `fal-ai/flux/schnell`.  `none` models a raised exception
(for `image` it also covers a response with no `images` entry, which
the code folds into the same `None` outcome). -/
structure Providers where
  llm : String → Option String
  videoPrompt : String → Option String
  image : ImageArgs → Option String

/-- Python truthiness of an `Optional[str]`: `None` and `""` are falsy. -/
def pyTruthy : Option String → Bool
  | none => false
  | some s => !s.isEmpty

/-- Python `str.lower()` (ASCII). -/
def pyLower (s : String) : String := String.mk (s.data.map Char.toLower)

/-- `str(n)` as a `String`. -/
def natStr (n : Nat) : String := String.mk (natChars n)

/-- The sketch-stage instruction built by
`generate_story_rough_sketch` (fal_service.py lines 38–59); the
framing whitespace of the Python triple-quoted literals is elided —
all claims treat the prompt text as opaque. -/
def sketch_prompt_of (p : StoryPrompt) : String :=
  let base :=
    "Create a rough sketch for a " ++ natStr p.numScenes ++ "-scene " ++ p.genre ++
      " story with a " ++ pyLower p.tone ++ " tone based on this idea: \x22" ++ p.idea ++ "\x22"
  let withChar :=
    if pyTruthy p.mainCharacter then
      base ++ "\nThe main character is described as: " ++ p.mainCharacter.getD "" ++ "\n"
    else base
  let withSetting :=
    if pyTruthy p.setting then
      withChar ++ "\nThe story is set in: " ++ p.setting.getD "" ++ "\n"
    else withChar
  withSetting ++
    "\nYour response should include:\n1. A brief story synopsis (2-3 sentences)\n2. Main plot points for a " ++
    natStr p.numScenes ++
    "-scene structure\n3. Key themes or motifs\n4. Critical story elements (items, places, events)\nFormat your response in clear sections with headers. Keep the entire response under 400 words."

/-- The character-stage instruction built by
`generate_character_description` (fal_service.py lines 87–117). -/
def character_prompt_of (sketch : String) (userChar : Option String) : String :=
  let base :=
    "Based on the following story sketch, create a detailed description of the main character.\nSTORY SKETCH:\n" ++
      sketch
  let withChar :=
    if pyTruthy userChar then
      base ++ "\nADDITIONAL CHARACTER INFORMATION FROM USER:\n" ++ userChar.getD "" ++
        "\nIncorporate these details into your character profile."
    else base
  withChar ++
    "\nCreate a comprehensive character profile including:\n1. PHYSICAL APPEARANCE: Age, gender, distinguishing features, style of dress, and other visual characteristics that would be important for illustration.\n2. PERSONALITY: Key personality traits, values, fears, desires, and quirks that define this character.\n3. BACKGROUND: Brief relevant backstory elements that influence the character's actions in this story.\n4. RELATIONSHIPS: Important connections to other characters or entities in the story.\n5. GROWTH ARC: How this character might change throughout the story.\nFormat this as a clear profile that can be referenced when creating story scenes and illustrations. Be specific and visual where possible."

/-- The scene-stage instruction built by `generate_story_scenes`
(fal_service.py lines 145–171), including the
`for i in range(3, num_scenes + 1)` placeholder loop. -/
def scene_prompt_of (sketch charDesc : String) (n : Nat) : String :=
  let extra := String.join <| (List.range' 3 (n - 2)).map fun i =>
    "\nSCENE " ++ natStr i ++ ": [Vivid, detailed description of scene " ++ natStr i ++
      " that advances the story. Make it visual and ensure character continuity.]"
  "Create " ++ natStr n ++
    " detailed, coherent scenes for a story based on the following story sketch and character profile:\nSTORY SKETCH:\n" ++
    sketch ++ "\nCHARACTER PROFILE:\n" ++ charDesc ++
    "\nFormat your response exactly as follows:\nSCENE 1: [Vivid, detailed description of the first scene. Make it highly visual and descriptive, focusing on the character's experience.]\nSCENE 2: [Vivid, detailed description of the second scene that builds from the first. Again, make it visual and incorporate character details.]" ++
    extra ++
    "\nKeep each scene description between 100-150 words. Make each scene visually distinctive and memorable, perfect for illustration. Ensure the character remains consistent throughout all scenes, and that the narrative builds logically from one scene to the next."

/-- The title instruction built by `generate_title`
(fal_service.py lines 388–404); `story_sketch[:200] + "..."`. -/
def title_prompt_of (idea sketch : String) : String :=
  "Create a compelling title for this story.\nSTORY IDEA:\n" ++ idea ++ "\nSTORY SKETCH:\n" ++
    String.mk (sketch.data.take 200 ++ "...".data) ++
    "\nThe title should be:\n1. Catchy and memorable\n2. Relevant to the story content\n3. Between 2-7 words\n4. Evocative of the mood and theme\nReturn only the title itself, without quotes or additional commentary."

/-- Python's substring test `needle in hay`. -/
def subStr (needle : PyStr) : PyStr → Bool
  | [] => needle.isEmpty
  | c :: cs => needle.isPrefixOf (c :: cs) || subStr needle cs

/-- One iteration of the section-scanning loop in
`generate_image_prompt` (fal_service.py lines 229–236); state is
`(character_physical, in_physical_section)`. -/
def physStep (st : PyStr × Bool) (line : PyStr) : PyStr × Bool :=
  if subStr "PHYSICAL APPEARANCE".data line then (st.1, true)
  else if subStr "PERSONALITY".data line || subStr "BACKGROUND".data line ||
      subStr "RELATIONSHIPS".data line || subStr "GROWTH".data line then (st.1, false)
  else if st.2 ∧ pyStrip line ≠ [] then (st.1 ++ pyStrip line ++ [' '], st.2)
  else st

/-- The `character_physical` text extracted from the character profile
by `generate_image_prompt`. -/
def extract_physical (charDesc : String) : String :=
  String.mk ((splitLines charDesc.data).foldl physStep ([], false)).1

/-- `FALService.generate_image_prompt` (lines 219–270): build the
input concept from scene text and extracted character appearance, call
the video-prompt generator, and fall back to the raw scene text when
that call fails. -/
def generate_image_prompt (pr : Providers) (sceneText : String) (charDesc : String) : String :=
  let concept :=
    "Scene description: " ++ sceneText ++ "\n\nMain character appearance: " ++
      extract_physical charDesc
  match pr.videoPrompt concept with
  | some enhanced => enhanced
  | none => sceneText

/-- `settings.IMAGE_WIDTH` (config.py line 90). -/
def IMAGE_WIDTH : Nat := 1024

/-- `settings.IMAGE_HEIGHT` (config.py line 91). -/
def IMAGE_HEIGHT : Nat := 768

/-- `settings.DIFFUSION_STEPS` default (config.py line 15). -/
def DIFFUSION_STEPS : Nat := 4

/-- `FALService.generate_image` (lines 272–314): returns the image URL
(or `None` on any failure) together with the provider arguments it
sent, so that theorems can speak about the requested seed. -/
def generate_image (pr : Providers) (sceneText : String) (sceneIndex : Nat)
    (charDesc artStyle : String) : Option String × ImageArgs :=
  let basePrompt := generate_image_prompt pr sceneText charDesc
  let imagePrompt :=
    if artStyle ≠ "" ∧ artStyle ≠ "Digital Painting" then
      basePrompt ++ " in " ++ artStyle ++ " style"
    else basePrompt
  let args : ImageArgs :=
    { prompt := imagePrompt, width := IMAGE_WIDTH, height := IMAGE_HEIGHT,
      steps := DIFFUSION_STEPS, seed := 42 + sceneIndex }
  (pr.image args, args)

/-- `result["output"].strip().replace('"', '')`. -/
def clean_title (s : String) : String :=
  String.mk ((pyStrip s.data).filter fun c => c ≠ '"')

/-- `FALService.generate_title` (lines 385–420): one LLM call, with the
fixed fallback `"Untitled Story"` on failure. -/
def generate_title (pr : Providers) (idea sketch : String) : String :=
  match pr.llm (title_prompt_of idea sketch) with
  | some out => clean_title out
  | none => "Untitled Story"

/-- `scene_text[:100] + "..."`, the abbreviated prompt stored on each
scene by `generate_story` (line 367). -/
def trunc_prompt (t : String) : String := String.mk (t.data.take 100 ++ "...".data)

/-- One iteration of the illustration loop in `generate_story`
(lines 354–369): generate the image and build the `Scene`. -/
def illustrate_scene (pr : Providers) (charDesc artStyle : String) (p : Nat × String) :
    Scene × ImageArgs :=
  let r := generate_image pr p.2 p.1 charDesc artStyle
  ({ text := p.2, imageUrl := r.1, imagePrompt := some (trunc_prompt p.2) }, r.2)

/-- Accumulating step of the illustration loop, also recording every
set of image-provider arguments that was issued. -/
def illStep (pr : Providers) (charDesc artStyle : String)
    (acc : List Scene × List ImageArgs) (p : Nat × String) : List Scene × List ImageArgs :=
  let r := illustrate_scene pr charDesc artStyle p
  (acc.1 ++ [r.1], acc.2 ++ [r.2])

/-- `FALService.generate_story` (lines 316–383).  The first component
is the returned `Story` or the raised error; the second lists the
image-provider invocations that were made (empty = the image provider
was never called).  `freshId`/`now` model the pydantic default
factories for `Story.id` and `Story.created_at`. -/
def generate_story (pr : Providers) (prompt : StoryPrompt) (freshId now : String) :
    Except String Story × List ImageArgs :=
  match pr.llm (sketch_prompt_of prompt) with
  | none => (Except.error "provider error", [])
  | some sketch =>
    if sketch = "" then (Except.error "Failed to generate story sketch", [])
    else
      match pr.llm (character_prompt_of sketch prompt.mainCharacter) with
      | none => (Except.error "provider error", [])
      | some charDesc =>
        if charDesc = "" then (Except.error "Failed to generate character description", [])
        else
          match pr.llm (scene_prompt_of sketch charDesc prompt.numScenes) with
          | none => (Except.error "provider error", [])
          | some raw =>
            let sceneTexts := (parse_scenes raw.data prompt.numScenes).map String.mk
            if sceneTexts = [] then (Except.error "Failed to generate story scenes", [])
            else
              let r := sceneTexts.enum.foldl (illStep pr charDesc prompt.artStyle) ([], [])
              (Except.ok
                { id := freshId
                  title := generate_title pr prompt.idea sketch
                  prompt := prompt
                  scenes := r.1
                  created_at := now
                  updated_at := none }, r.2)

/-! ## Harness for the parser round-trip claim

A "well-formed input with exactly `n` markers" (spec §8) is rendered
from a list of scene blocks: block `k` contributes the marker line
`SCENE k: <head>` followed by its continuation lines.  These
definitions come from the claim's wording, not from the source; the
parser they are fed to is the source embedding above. -/

/-- One scene of a well-formed input: the text after the colon on the
marker line, and the subsequent continuation lines. -/
structure SceneBlock where
  head : PyStr
  extra : List PyStr
deriving Repr, DecidableEq

/-- The marker line `SCENE k: <head>`. -/
def markerLine (k : Nat) (b : SceneBlock) : PyStr :=
  "SCENE ".data ++ natChars k ++ (':' :: ' ' :: b.head)

/-- The lines contributed by one block. -/
def blockLines (k : Nat) (b : SceneBlock) : List PyStr :=
  markerLine k b :: b.extra

/-- All lines of the rendered input, markers numbered from `k`. -/
def renderFrom (k : Nat) : List SceneBlock → List PyStr
  | [] => []
  | b :: rest => blockLines k b ++ renderFrom (k + 1) rest

/-- Join lines with `'\n'` (inverse of `splitLines` for newline-free
lines). -/
def joinLines : List PyStr → PyStr
  | [] => []
  | [l] => l
  | l :: l' :: ls => l ++ '\n' :: joinLines (l' :: ls)

/-- The rendered input text with markers `SCENE 1:` … `SCENE n:`. -/
def renderSceneText (bs : List SceneBlock) : PyStr :=
  joinLines (renderFrom 1 bs)

/-- The content the claim expects for one block: the colon remainder
and the continuation lines, space-joined. -/
def contentOf (b : SceneBlock) : PyStr :=
  b.head ++ (b.extra.map (fun l => ' ' :: l)).flatten

/-- A line with no leading/trailing Python whitespace (so `strip` is
the identity on it). -/
def noEdgeSpace (s : PyStr) : Bool :=
  (match s.head? with | some c => !pyIsSpace c | none => true) &&
  (match s.getLast? with | some c => !pyIsSpace c | none => true)

/-- A usable content line: nonempty, strip-stable, single-line. -/
def goodLine (l : PyStr) : Bool :=
  !l.isEmpty && noEdgeSpace l && l.all (fun c => c ≠ '\n')

/-- Well-formedness of a block, matching the claim's "each followed by
non-empty content": the colon remainder is a nonempty clean line and
every continuation line is a nonempty clean non-marker line. -/
def wfBlock (b : SceneBlock) : Bool :=
  goodLine b.head && b.extra.all (fun l => goodLine l && !hasMarker l)

/-- Decimal value of a digit string (used to invert `natChars`). -/
def digitsVal (s : PyStr) : Nat :=
  s.foldl (fun a c => 10 * a + (c.toNat - 48)) 0

/-! ## Concrete demonstration inputs -/

/-- A sample `StoryPrompt` (spec §8's end-to-end scenario). -/
def demoPrompt : StoryPrompt :=
  { idea := "a ninja in space", genre := "Sci-Fi", tone := "Serious",
    mainCharacter := none, setting := none, artStyle := "Watercolor", numScenes := 3 }

/-- Providers whose LLM always answers with a fixed three-marker scene
blob and whose image endpoints always fail. -/
def demoProviders : Providers :=
  { llm := fun _ => some "SCENE 1: alpha\nSCENE 2: beta\nSCENE 3: gamma"
    videoPrompt := fun _ => none
    image := fun _ => none }

/-- Providers whose LLM always returns the empty string. -/
def emptyLLMProviders : Providers :=
  { llm := fun _ => some "", videoPrompt := fun _ => none, image := fun _ => none }

/-- A story whose optional prompt fields are `None`. -/
def demoStoryNoChar : Story :=
  { id := "id-1", title := "T",
    prompt := { idea := "i", genre := "g", tone := "t", mainCharacter := none,
                setting := none, artStyle := "Digital Painting", numScenes := 3 },
    scenes := [{ text := "s1", imageUrl := none, imagePrompt := none }],
    created_at := "2024-05-01T10:00:00", updated_at := none }

/-- A story with one scene that has a remote image URL. -/
def demoStoryWithUrl : Story :=
  { id := "id-2", title := "U",
    prompt := { idea := "i", genre := "g", tone := "t", mainCharacter := some "hero",
                setting := some "sea", artStyle := "Watercolor", numScenes := 3 },
    scenes := [{ text := "s1", imageUrl := some "http://img/1", imagePrompt := some "p1" }],
    created_at := "2024-05-02T10:00:00", updated_at := none }

/-- A network oracle on which every download attempt fails. -/
def failNet : Nat → String → Option String := fun _ _ => none

/-- Archive metadata whose scene records are written out of index
order. -/
def mdOutOfOrder : Metadata :=
  { id := "s1", title := "T",
    prompt := { idea := "i", genre := "g", tone := "t", mainCharacter := "",
                setting := "", artStyle := "Digital Painting", numScenes := 2 },
    num_scenes := 2, creation_date := "2024-01-01T00:00:00",
    scenes := [{ index := 1, text := "b", imageUrl := none, imagePrompt := "", image_file := none },
               { index := 0, text := "a", imageUrl := none, imagePrompt := "", image_file := none }] }

/-- Two well-formed scene blocks for the parser round-trip witness. -/
def demoBlocks : List SceneBlock :=
  [{ head := "A hero wakes.".data, extra := [] },
   { head := "A journey begins.".data, extra := ["It is long.".data] }]

/-! ## Helper lemmas -/

theorem enumFrom_map_proj {α β : Type} (g : α → β) :
    ∀ (k : Nat) (l : List α), (List.enumFrom k l).map (fun p => g p.2) = l.map g := by
  intro k l
  induction l generalizing k with
  | nil => rfl
  | cons a t ih => simp [List.enumFrom_cons, ih]

theorem getElem?_enumFrom {α : Type} :
    ∀ (k i : Nat) (l : List α),
      (List.enumFrom k l)[i]? = l[i]?.map (fun a => (k + i, a)) := by
  intro k i l
  induction l generalizing k i with
  | nil => simp
  | cons a t ih =>
    cases i with
    | zero => simp [List.enumFrom_cons]
    | succ n =>
      have h : k + 1 + n = k + (n + 1) := by omega
      simp [List.enumFrom_cons, ih (k + 1) n, h]

theorem hasMarker_cons (c : Char) (cs : PyStr) :
    hasMarker (c :: cs) =
      ((sceneKey.isPrefixOf (c :: cs) && markerAfter ((c :: cs).drop 5)) || hasMarker cs) :=
  rfl

/-! ## C8 — deterministic per-scene image seed -/

/-- C8: For every scene index `i`, the seed passed to the image
provider equals `42 + i`; with fixed inputs the requested seed is
therefore reproducible, and distinct scene indices always receive
distinct seeds. -/
theorem image_seed_formula :
    (∀ (pr : Providers) (t cd a : String) (i : Nat),
        (generate_image pr t i cd a).2.seed = 42 + i) ∧
    (∀ (pr pr' : Providers) (t t' cd cd' a a' : String) (i j : Nat), i ≠ j →
        (generate_image pr t i cd a).2.seed ≠ (generate_image pr' t' j cd' a').2.seed) := by
  constructor
  · intro pr t cd a i
    rfl
  · intro pr pr' t t' cd cd' a a' i j hij
    simp only [generate_image]
    omega

/-- Witness for C8 at scene indices 0 and 1. -/
theorem image_seed_formula_witness :
    (generate_image demoProviders "t" 0 "cd" "Digital Painting").2.seed ≠
      (generate_image demoProviders "t" 1 "cd" "Digital Painting").2.seed :=
  image_seed_formula.2 demoProviders demoProviders "t" "t" "cd" "cd"
    "Digital Painting" "Digital Painting" 0 1 (by decide)

/-! ## C4 — pipeline aborts on empty sketch, before any image call -/

/-- C4: If the text provider returns the empty string for the
SKETCH stage, `generate_story` fails (the `ValueError` of
fal_service.py line 332) and the image provider is never invoked: the
recorded list of image-provider calls is empty and no `Story` is
produced. -/
theorem generate_story_abort_on_empty_sketch
    (pr : Providers) (p : StoryPrompt) (fid now : String)
    (h : pr.llm (sketch_prompt_of p) = some "") :
    (generate_story pr p fid now).1 = Except.error "Failed to generate story sketch" ∧
    (generate_story pr p fid now).2 = [] := by
  simp [generate_story, h]

/-- Witness for C4: an LLM that always answers `""`. -/
theorem generate_story_abort_on_empty_sketch_witness :
    (generate_story emptyLLMProviders demoPrompt "id" "now").1 =
        Except.error "Failed to generate story sketch" ∧
    (generate_story emptyLLMProviders demoPrompt "id" "now").2 = [] :=
  generate_story_abort_on_empty_sketch emptyLLMProviders demoPrompt "id" "now" rfl

/-! ## C10 — the marker search is unanchored -/

/-- C10: The marker test is unanchored: a line containing the
`SCENE`-whitespace-digit pattern anywhere is a marker line, so a
narrative line mentioning `SCENE 2: …` mid-sentence starts a new scene
and the text before the line's first colon is discarded (second
conjunct: `"The hero said"` does not survive into any scene). -/
theorem marker_search_unanchored :
    (∀ (pre line : PyStr), hasMarker line = true → hasMarker (pre ++ line) = true) ∧
    parse_scenes "SCENE 1: start\nThe hero said SCENE 2: onward, friends".data 2 =
      ["start".data, "onward, friends".data] := by
  constructor
  · intro pre line h
    induction pre with
    | nil => simpa using h
    | cons c cs ih =>
      rw [List.cons_append, hasMarker_cons, ih]
      simp
  · decide

/-- Witness for C10: a marker embedded mid-line is still found. -/
theorem marker_search_unanchored_witness :
    hasMarker ("The hero said ".data ++ "SCENE 2: onward".data) = true :=
  marker_search_unanchored.1 "The hero said ".data "SCENE 2: onward".data (by decide)

/-! ## C9 — marker matching is case-sensitive, not case-insensitive -/

/-- C9 counterexample: The claim says `scene 2:`/`Scene 2:` are
treated exactly like the upper-case form.  They are not: a lower- or
mixed-case marker line is not recognised, its content is discarded and
the parser falls back to the placeholder, while the upper-case form
yields the marked content. -/
theorem scene_marker_case_cex :
    parse_scenes "scene 1: hello".data 1 = ["Scene 1 description not available.".data] ∧
    parse_scenes "Scene 1: hello".data 1 = ["Scene 1 description not available.".data] ∧
    parse_scenes "SCENE 1: hello".data 1 = ["hello".data] := by
  decide

/-- C9 amended: The marker pattern is matched case-sensitively:
any line the parser treats as a scene marker must contain the literal
upper-case word `SCENE`. -/
theorem scene_marker_requires_uppercase (line : PyStr) (h : hasMarker line = true) :
    ∃ pre suf, line = pre ++ sceneKey ++ suf := by
  induction line with
  | nil => simp [hasMarker] at h
  | cons c cs ih =>
    rw [hasMarker_cons, Bool.or_eq_true] at h
    rcases h with h | h
    · have hpre := List.isPrefixOf_iff_prefix.mp (Bool.and_elim_left h)
      rcases hpre with ⟨t, ht⟩
      exact ⟨[], t, ht.symm⟩
    · rcases ih h with ⟨p, s, hcs⟩
      exact ⟨c :: p, s, by rw [hcs]; rfl⟩

/-- Witness for the amended C9 at the line `SCENE 2:`. -/
theorem scene_marker_requires_uppercase_witness :
    ∃ pre suf, "SCENE 2:".data = pre ++ sceneKey ++ suf :=
  scene_marker_requires_uppercase "SCENE 2:".data (by decide)

/-! ## C6 — scene order on load -/

theorem eq_of_perm_of_strict_index {l₁ l₂ : List AISceneRecord}
    (hp : l₁.Perm l₂)
    (s₁ : l₁.Pairwise (fun a b => a.index < b.index))
    (s₂ : l₂.Pairwise (fun a b => a.index < b.index)) : l₁ = l₂ := by
  haveI : IsAntisymm AISceneRecord (fun a b => a.index < b.index) :=
    ⟨fun a b h1 h2 => absurd h2 (Nat.lt_asymm h1)⟩
  exact List.eq_of_perm_of_sorted hp s₁ s₂

/-- C6 counterexample: The claim says "load reconstructs the
Story's scene list strictly by the recorded per-scene index field,
re-sorting on load".  The backend `StoryStorageService.load_story`
(the loader that returns a `Story`) does NOT re-sort: on an archive
whose records carry indices `[1, 0]`, it returns the scenes in archive
write order `["b", "a"]`, not in index order `["a", "b"]`. -/
theorem load_story_order_cex :
    mdOutOfOrder.scenes.map SceneRecord.index = [1, 0] ∧
    (load_story mdOutOfOrder).scenes.map Scene.text = ["b", "a"] ∧
    (load_story mdOutOfOrder).scenes.map Scene.text ≠ ["a", "b"] := by
  decide

/-- C6 amended: Only the desktop client's loader
(`StoryStorage.load_story` in AI-core/test.py) re-sorts by the
recorded `index`: its output is invariant under permuting the archive
records (for records with distinct indices).  The backend service's
loader returns the scenes in archive record order. -/
theorem load_scene_order_policy :
    (∀ (rs rs' : List AISceneRecord), rs.Perm rs' →
        rs.Pairwise (fun a b => a.index ≠ b.index) →
        aicore_load_scenes rs = aicore_load_scenes rs') ∧
    (∀ md : Metadata, (load_story md).scenes = md.scenes.map load_scene) := by
  constructor
  · intro rs rs' hperm hdist
    unfold aicore_load_scenes
    congr 1
    haveI : IsTotal AISceneRecord (fun a b => a.index ≤ b.index) :=
      ⟨fun a b => Nat.le_total _ _⟩
    haveI : IsTrans AISceneRecord (fun a b => a.index ≤ b.index) :=
      ⟨fun _ _ _ h1 h2 => Nat.le_trans h1 h2⟩
    have hsymm : ∀ {a b : AISceneRecord}, a.index ≠ b.index → b.index ≠ a.index :=
      fun h => h.symm
    have s1 := List.sorted_insertionSort (fun a b : AISceneRecord => a.index ≤ b.index) rs
    have s2 := List.sorted_insertionSort (fun a b : AISceneRecord => a.index ≤ b.index) rs'
    have d1 : (rs.insertionSort (fun a b => a.index ≤ b.index)).Pairwise
        (fun a b => a.index ≠ b.index) :=
      ((List.perm_insertionSort _ rs).pairwise_iff hsymm).mpr hdist
    have d2 : (rs'.insertionSort (fun a b => a.index ≤ b.index)).Pairwise
        (fun a b => a.index ≠ b.index) :=
      ((List.perm_insertionSort _ rs').pairwise_iff hsymm).mpr
        ((hperm.pairwise_iff hsymm).mp hdist)
    have hp : (rs.insertionSort (fun a b => a.index ≤ b.index)).Perm
        (rs'.insertionSort (fun a b => a.index ≤ b.index)) :=
      ((List.perm_insertionSort _ rs).trans hperm).trans
        (List.perm_insertionSort _ rs').symm
    exact eq_of_perm_of_strict_index hp
      ((s1.and d1).imp fun h => Nat.lt_of_le_of_ne h.1 h.2)
      ((s2.and d2).imp fun h => Nat.lt_of_le_of_ne h.1 h.2)
  · intro md
    rfl

/-- Witness for the amended C6: two write orders of the same two
records load identically through the desktop loader. -/
theorem load_scene_order_policy_witness :
    aicore_load_scenes
        [{ index := 0, text := "a", image_file := none, image_url := none },
         { index := 1, text := "b", image_file := none, image_url := none }] =
      aicore_load_scenes
        [{ index := 1, text := "b", image_file := none, image_url := none },
         { index := 0, text := "a", image_file := none, image_url := none }] :=
  load_scene_order_policy.1 _ _ (by decide) (by decide)

/-! ## C1 — archive round trip -/

/-- C1 counterexample: The claim asserts `load(save(S, f))`
reproduces `mainCharacter` (among other prompt fields) exactly.  For a
story whose `mainCharacter` is `None`, `save_story` writes
`story.prompt.mainCharacter or ""` and the loader reconstructs
`Some ""` — not `None`. -/
theorem story_archive_roundtrip_cex :
    (load_story (save_story failNet demoStoryNoChar).metadata).prompt.mainCharacter ≠
      demoStoryNoChar.prompt.mainCharacter ∧
    (load_story (save_story failNet demoStoryNoChar).metadata).prompt.mainCharacter =
      some "" := by
  decide

/-- C1 amended: `load_story (save_story net S)` reproduces `S`'s
`id`, `title`, the prompt fields `idea`/`genre`/`tone`/`artStyle`/
`numScenes`, the `created_at` timestamp, and the per-scene `text`,
`imageUrl` and `imagePrompt` in original index order — except that the
optional values `mainCharacter`, `setting` and per-scene `imagePrompt`
are normalised: a `None` (or `""`) on save loads back as `Some ""`. -/
theorem story_archive_roundtrip (net : Nat → String → Option String) (story : Story) :
    (load_story (save_story net story).metadata).id = story.id ∧
    (load_story (save_story net story).metadata).title = story.title ∧
    (load_story (save_story net story).metadata).prompt.idea = story.prompt.idea ∧
    (load_story (save_story net story).metadata).prompt.genre = story.prompt.genre ∧
    (load_story (save_story net story).metadata).prompt.tone = story.prompt.tone ∧
    (load_story (save_story net story).metadata).prompt.artStyle = story.prompt.artStyle ∧
    (load_story (save_story net story).metadata).prompt.numScenes = story.prompt.numScenes ∧
    (load_story (save_story net story).metadata).prompt.mainCharacter =
      some (story.prompt.mainCharacter.getD "") ∧
    (load_story (save_story net story).metadata).prompt.setting =
      some (story.prompt.setting.getD "") ∧
    (load_story (save_story net story).metadata).created_at = story.created_at ∧
    (load_story (save_story net story).metadata).scenes.map Scene.text =
      story.scenes.map Scene.text ∧
    (load_story (save_story net story).metadata).scenes.map Scene.imageUrl =
      story.scenes.map Scene.imageUrl ∧
    (load_story (save_story net story).metadata).scenes.map Scene.imagePrompt =
      story.scenes.map (fun sc => some (sc.imagePrompt.getD "")) := by
  refine ⟨rfl, rfl, rfl, rfl, rfl, rfl, rfl, rfl, rfl, rfl, ?_, ?_, ?_⟩
  · show ((story.scenes.enum.map fun p => save_scene_record net p.1 p.2).map
        load_scene).map Scene.text = story.scenes.map Scene.text
    rw [List.map_map, List.map_map]
    exact enumFrom_map_proj Scene.text 0 story.scenes
  · show ((story.scenes.enum.map fun p => save_scene_record net p.1 p.2).map
        load_scene).map Scene.imageUrl = story.scenes.map Scene.imageUrl
    rw [List.map_map, List.map_map]
    exact enumFrom_map_proj Scene.imageUrl 0 story.scenes
  · show ((story.scenes.enum.map fun p => save_scene_record net p.1 p.2).map
        load_scene).map Scene.imagePrompt =
      story.scenes.map (fun sc => some (sc.imagePrompt.getD ""))
    rw [List.map_map, List.map_map]
    exact enumFrom_map_proj (fun sc => some (sc.imagePrompt.getD "")) 0 story.scenes

/-! ## Decimal rendering: helper lemmas -/

theorem natCharsGo_zero (f : Nat) (acc : PyStr) : natCharsGo f 0 acc = acc := by
  cases f <;> rfl

theorem natCharsGo_fuel : ∀ (n f : Nat) (acc : PyStr), n ≤ f →
    natCharsGo f n acc = natCharsGo n n acc := by
  intro n
  induction n using Nat.strong_induction_on with
  | _ n ih =>
    intro f acc hf
    cases n with
    | zero => rw [natCharsGo_zero, natCharsGo_zero]
    | succ m =>
      cases f with
      | zero => omega
      | succ g =>
        have hq : (m + 1) / 10 < m + 1 := Nat.div_lt_self (Nat.succ_pos m) (by norm_num)
        show natCharsGo g ((m + 1) / 10) (digitChar ((m + 1) % 10) :: acc) =
          natCharsGo (m + 1) (m + 1) acc
        have hR : natCharsGo (m + 1) (m + 1) acc =
            natCharsGo m ((m + 1) / 10) (digitChar ((m + 1) % 10) :: acc) := rfl
        rw [hR, ih ((m + 1) / 10) hq g _ (by omega), ih ((m + 1) / 10) hq m _ (by omega)]

theorem natCharsGo_canon_succ (m : Nat) (acc : PyStr) :
    natCharsGo (m + 1) (m + 1) acc =
      natCharsGo ((m + 1) / 10) ((m + 1) / 10) (digitChar ((m + 1) % 10) :: acc) := by
  have hq : (m + 1) / 10 < m + 1 := Nat.div_lt_self (Nat.succ_pos m) (by norm_num)
  calc natCharsGo (m + 1) (m + 1) acc
      = natCharsGo m ((m + 1) / 10) (digitChar ((m + 1) % 10) :: acc) := rfl
    _ = natCharsGo ((m + 1) / 10) ((m + 1) / 10) (digitChar ((m + 1) % 10) :: acc) :=
        natCharsGo_fuel _ m _ (by omega)

theorem natCharsGo_append : ∀ (n : Nat) (acc : PyStr),
    natCharsGo n n acc = natCharsGo n n [] ++ acc := by
  intro n
  induction n using Nat.strong_induction_on with
  | _ n ih =>
    intro acc
    cases n with
    | zero => rfl
    | succ m =>
      have hq : (m + 1) / 10 < m + 1 := Nat.div_lt_self (Nat.succ_pos m) (by norm_num)
      rw [natCharsGo_canon_succ, natCharsGo_canon_succ,
        ih _ hq (digitChar ((m + 1) % 10) :: acc), ih _ hq [digitChar ((m + 1) % 10)]]
      simp

theorem digitsVal_append_singleton (xs : PyStr) (c : Char) :
    digitsVal (xs ++ [c]) = 10 * digitsVal xs + (c.toNat - 48) := by
  simp [digitsVal, List.foldl_append]

theorem digitsVal_natCharsGo : ∀ n : Nat, digitsVal (natCharsGo n n []) = n := by
  intro n
  induction n using Nat.strong_induction_on with
  | _ n ih =>
    cases n with
    | zero => rfl
    | succ m =>
      have hq : (m + 1) / 10 < m + 1 := Nat.div_lt_self (Nat.succ_pos m) (by norm_num)
      rw [natCharsGo_canon_succ, natCharsGo_append, digitsVal_append_singleton, ih _ hq]
      have h10 : (m + 1) % 10 < 10 := Nat.mod_lt _ (by norm_num)
      have hall : ∀ d, d < 10 → (digitChar d).toNat - 48 = d := by decide
      rw [hall _ h10]
      omega

theorem digitsVal_natChars (n : Nat) : digitsVal (natChars n) = n := by
  by_cases h : n = 0
  · subst h; rfl
  · simp [natChars, h, digitsVal_natCharsGo]

theorem natChars_inj {m n : Nat} (h : natChars m = natChars n) : m = n := by
  have hv := congrArg digitsVal h
  rwa [digitsVal_natChars, digitsVal_natChars] at hv

theorem mkScenePath_inj {i j : Nat} (h : mkScenePath i = mkScenePath j) : i = j := by
  have hd : ("images/scene_".data ++ natChars i ++ ".png".data) =
      ("images/scene_".data ++ natChars j ++ ".png".data) := congrArg String.data h
  rw [List.append_assoc, List.append_assoc] at hd
  exact natChars_inj (List.append_cancel_right (List.append_cancel_left hd))

theorem mkScenePath_ne_keep (i : Nat) : mkScenePath i ≠ "images/.keep" := by
  intro h
  have hd : ("images/scene_".data ++ natChars i ++ ".png".data) = "images/.keep".data :=
    congrArg String.data h
  have hlen := congrArg List.length hd
  have h1 : "images/scene_".data.length = 13 := rfl
  have h2 : ".png".data.length = 4 := rfl
  have h3 : "images/.keep".data.length = 12 := rfl
  simp only [List.length_append, h1, h2, h3] at hlen
  omega

/-! ## C7 — save tolerates image-fetch failure -/

/-- C7: If the image download for scene `i` fails on both the
first attempt and the retry, `save_story` still succeeds and the
archive records the metadata (text, image prompt, original URL) of
*every* scene; scene `i`'s record carries no `image_file` and the
archive holds no image payload at scene `i`'s path.  (The model of
`save_story` is total: the only raising path in the source is a
filesystem failure, which is outside the model.) -/
theorem save_story_image_fetch_failure
    (net : Nat → String → Option String) (story : Story) (i : Nat) (url : String)
    (sc : Scene) (hsc : story.scenes[i]? = some sc) (hurl : sc.imageUrl = some url)
    (h0 : net 0 url = none) (h1 : net 1 url = none) :
    (save_story net story).metadata.scenes.map SceneRecord.text =
        story.scenes.map Scene.text ∧
    (save_story net story).metadata.scenes.map SceneRecord.imageUrl =
        story.scenes.map Scene.imageUrl ∧
    (save_story net story).metadata.scenes.map SceneRecord.imagePrompt =
        story.scenes.map (fun s => s.imagePrompt.getD "") ∧
    ((save_story net story).metadata.scenes.map SceneRecord.image_file)[i]? = some none ∧
    (∀ e ∈ (save_story net story).images, e.1 ≠ mkScenePath i) := by
  have hdl : download_image net url = none := by simp [download_image, h0, h1]
  refine ⟨?_, ?_, ?_, ?_, ?_⟩
  · show ((story.scenes.enum.map fun p => save_scene_record net p.1 p.2).map
        SceneRecord.text) = story.scenes.map Scene.text
    rw [List.map_map]
    exact enumFrom_map_proj Scene.text 0 story.scenes
  · show ((story.scenes.enum.map fun p => save_scene_record net p.1 p.2).map
        SceneRecord.imageUrl) = story.scenes.map Scene.imageUrl
    rw [List.map_map]
    exact enumFrom_map_proj Scene.imageUrl 0 story.scenes
  · show ((story.scenes.enum.map fun p => save_scene_record net p.1 p.2).map
        SceneRecord.imagePrompt) = story.scenes.map (fun s => s.imagePrompt.getD "")
    rw [List.map_map]
    exact enumFrom_map_proj (fun s => s.imagePrompt.getD "") 0 story.scenes
  · show (((story.scenes.enum.map fun p => save_scene_record net p.1 p.2).map
        SceneRecord.image_file))[i]? = some none
    rw [List.map_map, List.getElem?_map]
    show Option.map _ (List.enumFrom 0 story.scenes)[i]? = some none
    rw [getElem?_enumFrom, hsc]
    show some (save_scene_record net (0 + i) sc).image_file = some none
    simp [save_scene_record, hurl, hdl]
  · intro e he
    simp only [save_story, List.mem_cons] at he
    rcases he with he | he
    · rw [he]
      intro hcontra
      exact mkScenePath_ne_keep i hcontra.symm
    · rcases List.mem_filterMap.mp he with ⟨p, hp, hfp⟩
      rcases Option.map_eq_some'.mp hfp with ⟨data, hbind, heq⟩
      by_cases hpi : p.1 = i
      · exfalso
        have hg := List.mem_enum_iff_getElem?.mp hp
        rw [hpi, hsc] at hg
        have hps : p.2 = sc := (Option.some.inj hg).symm
        rw [hps, hurl] at hbind
        simp [hdl] at hbind
      · rw [← heq]
        intro hcontra
        exact hpi (mkScenePath_inj hcontra)

/-- Witness for C7: a one-scene story with a remote URL saved over a
network on which every download attempt fails. -/
theorem save_story_image_fetch_failure_witness :
    (save_story failNet demoStoryWithUrl).metadata.scenes.map SceneRecord.text =
        demoStoryWithUrl.scenes.map Scene.text ∧
    (save_story failNet demoStoryWithUrl).metadata.scenes.map SceneRecord.imageUrl =
        demoStoryWithUrl.scenes.map Scene.imageUrl ∧
    (save_story failNet demoStoryWithUrl).metadata.scenes.map SceneRecord.imagePrompt =
        demoStoryWithUrl.scenes.map (fun s => s.imagePrompt.getD "") ∧
    ((save_story failNet demoStoryWithUrl).metadata.scenes.map SceneRecord.image_file)[0]? =
        some none ∧
    (∀ e ∈ (save_story failNet demoStoryWithUrl).images, e.1 ≠ mkScenePath 0) :=
  save_story_image_fetch_failure failNet demoStoryWithUrl 0 "http://img/1"
    { text := "s1", imageUrl := some "http://img/1", imagePrompt := some "p1" }
    rfl rfl rfl rfl

/-! ## Padding closed form and parser output length -/

theorem padGo_closed : ∀ (f n : Nat) (s : List PyStr), n - s.length ≤ f →
    padGo n f s = s ++ (List.range' (s.length + 1) (n - s.length)).map placeholder := by
  intro f
  induction f with
  | zero =>
    intro n s h
    have h0 : n - s.length = 0 := by omega
    rw [h0]
    simp [padGo]
  | succ f ih =>
    intro n s h
    by_cases hlt : s.length < n
    · rw [padGo, if_pos hlt, ih n _ (by simp; omega)]
      have hs : (s ++ [placeholder (s.length + 1)]).length = s.length + 1 := by simp
      rw [hs]
      have hn : n - s.length = (n - (s.length + 1)) + 1 := by omega
      rw [hn, List.range'_succ]
      simp [List.append_assoc]
    · rw [padGo, if_neg hlt]
      have h0 : n - s.length = 0 := by omega
      rw [h0]
      simp

theorem padScenes_closed (n : Nat) (s : List PyStr) :
    padScenes n s = s ++ (List.range' (s.length + 1) (n - s.length)).map placeholder :=
  padGo_closed (n - s.length) n s (Nat.le_refl _)

theorem parse_scenes_length (text : PyStr) (n : Nat) : (parse_scenes text n).length = n := by
  simp [parse_scenes, padScenes_closed]
  omega

/-! ## C5 — image-provider failures do not abort generation -/

theorem illStep_foldl (pr : Providers) (cd a : String) :
    ∀ (l : List (Nat × String)) (acc : List Scene × List ImageArgs),
      l.foldl (illStep pr cd a) acc =
        (acc.1 ++ l.map (fun q => (illustrate_scene pr cd a q).1),
         acc.2 ++ l.map (fun q => (illustrate_scene pr cd a q).2)) := by
  intro l
  induction l with
  | nil => intro acc; simp
  | cons x t ih =>
    intro acc
    rw [List.foldl_cons, ih]
    simp [illStep]

/-- C5: When the three text stages succeed, `generate_story`
returns a completed `Story` (it does not raise) whose scene list has
the full length with every scene text present, and each scene's image
reference is exactly what the image provider returned for it — in
particular `none`, with generation having continued, for every scene
on which the provider failed. -/
theorem generate_story_image_failure_tolerant
    (pr : Providers) (p : StoryPrompt) (fid now sketch charDesc raw : String)
    (h1 : pr.llm (sketch_prompt_of p) = some sketch) (h2 : sketch ≠ "")
    (h3 : pr.llm (character_prompt_of sketch p.mainCharacter) = some charDesc)
    (h4 : charDesc ≠ "")
    (h5 : pr.llm (scene_prompt_of sketch charDesc p.numScenes) = some raw)
    (h6 : 1 ≤ p.numScenes) :
    ∃ st : Story, (generate_story pr p fid now).1 = Except.ok st ∧
      st.scenes.map Scene.text = (parse_scenes raw.data p.numScenes).map String.mk ∧
      st.scenes.length = p.numScenes ∧
      (∀ j (hj : j < st.scenes.length),
        (st.scenes.get ⟨j, hj⟩).imageUrl =
          (generate_image pr ((st.scenes.get ⟨j, hj⟩).text) j charDesc p.artStyle).1) := by
  have hlen : ((parse_scenes raw.data p.numScenes).map String.mk).length = p.numScenes := by
    simp [parse_scenes_length]
  have hne : (parse_scenes raw.data p.numScenes).map String.mk ≠ [] := by
    intro h0
    rw [h0] at hlen
    simp at hlen
    omega
  refine ⟨{ id := fid
            title := generate_title pr p.idea sketch
            prompt := p
            scenes := ((parse_scenes raw.data p.numScenes).map String.mk).enum.map
              fun q => (illustrate_scene pr charDesc p.artStyle q).1
            created_at := now
            updated_at := none }, ?_, ?_, ?_, ?_⟩
  · simp only [generate_story, h1, h3, h5]
    rw [if_neg h2, if_neg h4, if_neg hne, illStep_foldl]
    simp
  · show (((parse_scenes raw.data p.numScenes).map String.mk).enum.map _).map Scene.text = _
    rw [List.map_map]
    exact (enumFrom_map_proj (fun t : String => t) 0
      ((parse_scenes raw.data p.numScenes).map String.mk)).trans
      (List.map_id ((parse_scenes raw.data p.numScenes).map String.mk))
  · show (((parse_scenes raw.data p.numScenes).map String.mk).enum.map _).length = _
    rw [List.length_map, List.enum_length]
    exact hlen
  · intro j hj
    simp only [List.length_map, List.enum_length] at hj
    simp only [List.get_eq_getElem, List.getElem_map, List.getElem_enum]
    simp [illustrate_scene]

/-- Witness for C5: a three-scene prompt whose image provider always
fails; generation still completes with all three scene texts. -/
theorem generate_story_image_failure_tolerant_witness :
    ∃ st : Story, (generate_story demoProviders demoPrompt "id" "now").1 = Except.ok st ∧
      st.scenes.map Scene.text =
        (parse_scenes "SCENE 1: alpha\nSCENE 2: beta\nSCENE 3: gamma".data 3).map String.mk ∧
      st.scenes.length = 3 ∧
      (∀ j (hj : j < st.scenes.length),
        (st.scenes.get ⟨j, hj⟩).imageUrl =
          (generate_image demoProviders ((st.scenes.get ⟨j, hj⟩).text) j
            "SCENE 1: alpha\nSCENE 2: beta\nSCENE 3: gamma" demoPrompt.artStyle).1) :=
  generate_story_image_failure_tolerant demoProviders demoPrompt "id" "now"
    "SCENE 1: alpha\nSCENE 2: beta\nSCENE 3: gamma"
    "SCENE 1: alpha\nSCENE 2: beta\nSCENE 3: gamma"
    "SCENE 1: alpha\nSCENE 2: beta\nSCENE 3: gamma"
    rfl (by decide) rfl (by decide) rfl (by decide)

/-! ## Strip-stability and marker-line lemmas (towards C2) -/

theorem pyStrip_cons_space (s : PyStr) : pyStrip (' ' :: s) = pyStrip s := rfl

theorem noEdgeSpace_head {c : Char} {t : PyStr} (h : noEdgeSpace (c :: t) = true) :
    pyIsSpace c = false := by
  simp [noEdgeSpace] at h
  simpa using h.1

theorem noEdgeSpace_getLast {l : PyStr} {c : Char} (h : noEdgeSpace l = true)
    (hl : l.getLast? = some c) : pyIsSpace c = false := by
  simp [noEdgeSpace, hl] at h
  simpa using h.2

theorem stripLeft_eq_self {l : PyStr} (hne : l ≠ []) (h : noEdgeSpace l = true) :
    stripLeft l = l := by
  obtain ⟨c, t, rfl⟩ := List.exists_cons_of_ne_nil hne
  simp [stripLeft, List.dropWhile_cons, noEdgeSpace_head h]

theorem stripRight_eq_self {l : PyStr} (hne : l ≠ []) (h : noEdgeSpace l = true) :
    stripRight l = l := by
  rcases List.eq_nil_or_concat l with rfl | ⟨t, c, rfl⟩
  · exact absurd rfl hne
  · have hlast : (t.concat c).getLast? = some c := by
      simp [List.concat_eq_append, List.getLast?_concat]
    have hc := noEdgeSpace_getLast h hlast
    simp [stripRight, List.concat_eq_append, List.reverse_append, List.dropWhile_cons, hc]

theorem pyStrip_eq_self {l : PyStr} (hne : l ≠ []) (h : noEdgeSpace l = true) :
    pyStrip l = l := by
  unfold pyStrip
  rw [stripLeft_eq_self hne h, stripRight_eq_self hne h]

theorem goodLine_spec {l : PyStr} (h : goodLine l = true) :
    l ≠ [] ∧ noEdgeSpace l = true ∧ '\n' ∉ l := by
  simp only [goodLine, Bool.and_eq_true, Bool.not_eq_true', List.isEmpty_eq_false,
    List.all_eq_true] at h
  refine ⟨h.1.1, h.1.2, fun hmem => ?_⟩
  have := h.2 _ hmem
  simp at this

theorem wfBlock_spec {b : SceneBlock} (h : wfBlock b = true) :
    goodLine b.head = true ∧ ∀ l ∈ b.extra, goodLine l = true ∧ hasMarker l = false := by
  simp only [wfBlock, Bool.and_eq_true, List.all_eq_true] at h
  refine ⟨h.1, fun l hl => ?_⟩
  have := h.2 l hl
  simp only [Bool.and_eq_true, Bool.not_eq_true'] at this
  exact this

theorem digitChar_props : ∀ d, d < 10 →
    (digitChar d).isDigit = true ∧ pyIsSpace (digitChar d) = false ∧
    digitChar d ≠ ':' ∧ digitChar d ≠ '\n' := by decide

theorem natChars_ne_nil (n : Nat) : natChars n ≠ [] := by
  by_cases h : n = 0
  · subst h; simp [natChars]
  · obtain ⟨m, rfl⟩ := Nat.exists_eq_succ_of_ne_zero h
    simp only [natChars, if_neg h]
    rw [natCharsGo_canon_succ, natCharsGo_append]
    simp

theorem natCharsGo_mem_digit : ∀ n : Nat, ∀ c ∈ natCharsGo n n [],
    ∃ d, d < 10 ∧ c = digitChar d := by
  intro n
  induction n using Nat.strong_induction_on with
  | _ n ih =>
    intro c hc
    cases n with
    | zero => simp [natCharsGo] at hc
    | succ m =>
      have hq : (m + 1) / 10 < m + 1 := Nat.div_lt_self (Nat.succ_pos m) (by norm_num)
      rw [natCharsGo_canon_succ, natCharsGo_append, List.mem_append] at hc
      rcases hc with hc | hc
      · exact ih _ hq c hc
      · simp at hc
        exact ⟨(m + 1) % 10, Nat.mod_lt _ (by norm_num), hc⟩

theorem natChars_mem_digit {n : Nat} {c : Char} (hc : c ∈ natChars n) :
    ∃ d, d < 10 ∧ c = digitChar d := by
  by_cases h : n = 0
  · subst h
    simp [natChars] at hc
    exact ⟨0, by norm_num, hc⟩
  · rw [natChars, if_neg h] at hc
    exact natCharsGo_mem_digit n c hc

theorem natChars_head_digit (n : Nat) :
    ∃ d ds, natChars n = d :: ds ∧ d.isDigit = true ∧ pyIsSpace d = false := by
  obtain ⟨d, ds, hds⟩ := List.exists_cons_of_ne_nil (natChars_ne_nil n)
  obtain ⟨k, hk, hdk⟩ := natChars_mem_digit (by rw [hds]; exact List.mem_cons_self _ _)
  obtain ⟨h1, h2, _, _⟩ := digitChar_props k hk
  exact ⟨d, ds, hds, by rw [hdk]; exact h1, by rw [hdk]; exact h2⟩

theorem natChars_no_colon {n : Nat} {c : Char} (hc : c ∈ natChars n) : c ≠ ':' := by
  obtain ⟨d, hd, rfl⟩ := natChars_mem_digit hc
  exact (digitChar_props d hd).2.2.1

theorem natChars_no_newline {n : Nat} {c : Char} (hc : c ∈ natChars n) : c ≠ '\n' := by
  obtain ⟨d, hd, rfl⟩ := natChars_mem_digit hc
  exact (digitChar_props d hd).2.2.2

theorem hasMarker_markerLine (k : Nat) (b : SceneBlock) :
    hasMarker (markerLine k b) = true := by
  obtain ⟨d, ds, hk, hdig, hws⟩ := natChars_head_digit k
  show hasMarker ("SCENE ".data ++ (natChars k ++ (':' :: ' ' :: b.head))) = true
  rw [hk]
  show hasMarker
      ('S' :: 'C' :: 'E' :: 'N' :: 'E' :: ' ' :: d :: (ds ++ ':' :: ' ' :: b.head)) = true
  rw [hasMarker_cons, Bool.or_eq_true]
  left
  rw [Bool.and_eq_true]
  constructor
  · simp [sceneKey, List.isPrefixOf]
  · show markerAfter (' ' :: d :: (ds ++ ':' :: ' ' :: b.head)) = true
    have hsp : pyIsSpace ' ' = true := rfl
    simp [markerAfter, List.takeWhile_cons, List.dropWhile_cons, hsp, hws, hdig]

theorem afterFirstColon_append {xs : PyStr} (r : PyStr) (h : ∀ c ∈ xs, c ≠ ':') :
    afterFirstColon (xs ++ r) = afterFirstColon r := by
  induction xs with
  | nil => rfl
  | cons c t ih =>
    have hc : c ≠ ':' := h c (List.mem_cons_self _ _)
    show afterFirstColon (c :: (t ++ r)) = _
    rw [afterFirstColon, if_neg hc]
    exact ih (fun c' hc' => h c' (List.mem_cons_of_mem _ hc'))

theorem seedContent_markerLine (k : Nat) (b : SceneBlock) (hb : goodLine b.head = true) :
    seedContent (markerLine k b) = b.head := by
  obtain ⟨hne, hedge, -⟩ := goodLine_spec hb
  unfold seedContent
  have h1 : afterFirstColon (markerLine k b) = some (' ' :: b.head) := by
    show afterFirstColon ("SCENE ".data ++ (natChars k ++ (':' :: ' ' :: b.head))) = _
    rw [afterFirstColon_append _ (by decide : ∀ c ∈ "SCENE ".data, c ≠ ':'),
      afterFirstColon_append _ (fun c hc => natChars_no_colon hc)]
    simp [afterFirstColon]
  rw [h1]
  show pyStrip (' ' :: b.head) = b.head
  rw [pyStrip_cons_space, pyStrip_eq_self hne hedge]

theorem noEdgeSpace_mk {s s' : PyStr} {c : Char} (hh : s.head? = some c)
    (hc : pyIsSpace c = false) (hl : s.getLast? = s'.getLast?) (hne' : s' ≠ [])
    (h' : noEdgeSpace s' = true) : noEdgeSpace s = true := by
  obtain ⟨e, he⟩ : ∃ e, s'.getLast? = some e := by
    rcases List.eq_nil_or_concat s' with rfl | ⟨t, a, rfl⟩
    · exact absurd rfl hne'
    · exact ⟨a, by simp [List.concat_eq_append, List.getLast?_concat]⟩
  have hce := noEdgeSpace_getLast h' he
  simp [noEdgeSpace, hh, hc, hl, he, hce]

theorem markerLine_ne_nil (k : Nat) (b : SceneBlock) : markerLine k b ≠ [] := by
  show "SCENE ".data ++ _ ≠ []
  simp

theorem pyStrip_markerLine (k : Nat) (b : SceneBlock) (hb : goodLine b.head = true) :
    pyStrip (markerLine k b) = markerLine k b := by
  obtain ⟨hne, hedge, -⟩ := goodLine_spec hb
  apply pyStrip_eq_self (markerLine_ne_nil k b)
  have hh : (markerLine k b).head? = some 'S' := by
    show ("SCENE ".data ++ (natChars k ++ (':' :: ' ' :: b.head))).head? = _
    rw [List.head?_append_of_ne_nil _ (by decide)]
    rfl
  have hl : (markerLine k b).getLast? = b.head.getLast? := by
    show ("SCENE ".data ++ (natChars k ++ (':' :: ' ' :: b.head))).getLast? = _
    rw [List.getLast?_append_of_ne_nil _ (by simp),
      List.getLast?_append_of_ne_nil _ (by simp : (':' :: ' ' :: b.head) ≠ [])]
    show ([':', ' '] ++ b.head).getLast? = _
    rw [List.getLast?_append_of_ne_nil _ hne]
  exact noEdgeSpace_mk hh rfl hl hne hedge

theorem parseStep_marker (st : ParseState) (k : Nat) (b : SceneBlock)
    (hb : goodLine b.head = true) :
    parseStep st (markerLine k b) =
      ⟨if st.started ∧ st.current ≠ [] then st.scenes ++ [pyStrip st.current] else st.scenes,
        b.head, true⟩ := by
  simp only [parseStep]
  rw [pyStrip_markerLine k b hb, hasMarker_markerLine k b, seedContent_markerLine k b hb]
  simp

theorem parseStep_content (sc : List PyStr) (cur : PyStr) (l : PyStr)
    (hg : goodLine l = true) (hm : hasMarker l = false) :
    parseStep ⟨sc, cur, true⟩ l = ⟨sc, cur ++ (' ' :: l), true⟩ := by
  obtain ⟨hne, hedge, -⟩ := goodLine_spec hg
  simp only [parseStep]
  rw [pyStrip_eq_self hne hedge, hm]
  simp [hne]

theorem foldl_extras : ∀ (extras : List PyStr) (sc : List PyStr) (cur : PyStr),
    (∀ l ∈ extras, goodLine l = true ∧ hasMarker l = false) →
    extras.foldl parseStep ⟨sc, cur, true⟩ =
      ⟨sc, cur ++ (extras.map (fun l => ' ' :: l)).flatten, true⟩ := by
  intro extras
  induction extras with
  | nil => intro sc cur _; simp
  | cons l t ih =>
    intro sc cur h
    obtain ⟨hg, hm⟩ := h l (List.mem_cons_self _ _)
    rw [List.foldl_cons, parseStep_content sc cur l hg hm,
      ih _ _ (fun x hx => h x (List.mem_cons_of_mem _ hx))]
    simp [List.append_assoc]

theorem contentOf_ne_nil {b : SceneBlock} (hb : goodLine b.head = true) :
    contentOf b ≠ [] := by
  obtain ⟨hne, -, -⟩ := goodLine_spec hb
  unfold contentOf
  intro h
  rw [List.append_eq_nil] at h
  exact hne h.1

theorem noEdgeSpace_contentAux : ∀ (extras : List PyStr) (pre : PyStr), pre ≠ [] →
    noEdgeSpace pre = true → (∀ l ∈ extras, goodLine l = true) →
    noEdgeSpace (pre ++ (extras.map (fun l => ' ' :: l)).flatten) = true ∧
    (pre ++ (extras.map (fun l => ' ' :: l)).flatten) ≠ [] := by
  intro extras
  induction extras with
  | nil =>
    intro pre hne hedge _
    simpa using ⟨hedge, hne⟩
  | cons l t ih =>
    intro pre hne hedge h
    obtain ⟨hlne, hledge, -⟩ := goodLine_spec (h l (List.mem_cons_self _ _))
    obtain ⟨c, pr, hpc⟩ := List.exists_cons_of_ne_nil hne
    have hc : pyIsSpace c = false := by rw [hpc] at hedge; exact noEdgeSpace_head hedge
    have hpre' : (pre ++ (' ' :: l)) ≠ [] := by simp
    have hedge' : noEdgeSpace (pre ++ (' ' :: l)) = true := by
      apply @noEdgeSpace_mk (pre ++ (' ' :: l)) l c ?_ hc ?_ hlne hledge
      · rw [hpc]
        show ((c :: pr) ++ (' ' :: l)).head? = some c
        rw [List.head?_append_of_ne_nil _ (by simp)]
        rfl
      · show (pre ++ (' ' :: l)).getLast? = l.getLast?
        rw [List.getLast?_append_of_ne_nil _ (by simp : (' ' :: l) ≠ [])]
        show ([' '] ++ l).getLast? = _
        rw [List.getLast?_append_of_ne_nil _ hlne]
    have hkey : pre ++ (((l :: t).map (fun x => ' ' :: x)).flatten) =
        (pre ++ (' ' :: l)) ++ ((t.map (fun x => ' ' :: x)).flatten) := by
      simp [List.append_assoc]
    rw [hkey]
    exact ih _ hpre' hedge' (fun x hx => h x (List.mem_cons_of_mem _ hx))

theorem pyStrip_contentOf {b : SceneBlock} (hwf : wfBlock b = true) :
    pyStrip (contentOf b) = contentOf b := by
  obtain ⟨hgh, hex⟩ := wfBlock_spec hwf
  obtain ⟨hne, hedge, -⟩ := goodLine_spec hgh
  have hh := noEdgeSpace_contentAux b.extra b.head hne hedge (fun l hl => (hex l hl).1)
  exact pyStrip_eq_self hh.2 hh.1

theorem foldl_blockLines (k : Nat) (b : SceneBlock) (st : ParseState)
    (hwf : wfBlock b = true) :
    (blockLines k b).foldl parseStep st =
      ⟨if st.started ∧ st.current ≠ [] then st.scenes ++ [pyStrip st.current] else st.scenes,
        contentOf b, true⟩ := by
  obtain ⟨hgh, hex⟩ := wfBlock_spec hwf
  show ((markerLine k b :: b.extra).foldl parseStep st) = _
  rw [List.foldl_cons, parseStep_marker st k b hgh, foldl_extras b.extra _ _ hex]
  rfl

theorem flushed_renderFrom : ∀ (bs : List SceneBlock) (k : Nat) (st : ParseState),
    (∀ b ∈ bs, wfBlock b = true) →
    (if ((renderFrom k bs).foldl parseStep st).started ∧
        ((renderFrom k bs).foldl parseStep st).current ≠ [] then
      ((renderFrom k bs).foldl parseStep st).scenes ++
        [pyStrip ((renderFrom k bs).foldl parseStep st).current]
    else ((renderFrom k bs).foldl parseStep st).scenes) =
      (if st.started ∧ st.current ≠ [] then st.scenes ++ [pyStrip st.current] else st.scenes)
        ++ bs.map contentOf := by
  intro bs
  induction bs with
  | nil => intro k st _; simp [renderFrom]
  | cons b rest ih =>
    intro k st h
    have hwfb := h b (List.mem_cons_self _ _)
    have hrest : ∀ x ∈ rest, wfBlock x = true :=
      fun x hx => h x (List.mem_cons_of_mem _ hx)
    have hstep : renderFrom k (b :: rest) = blockLines k b ++ renderFrom (k + 1) rest := rfl
    rw [hstep, List.foldl_append, foldl_blockLines k b st hwfb, ih (k + 1) _ hrest]
    have hcne : contentOf b ≠ [] := contentOf_ne_nil (wfBlock_spec hwfb).1
    simp [hcne, pyStrip_contentOf hwfb, List.append_assoc]

theorem splitLines_ne_nil : ∀ s : PyStr, splitLines s ≠ [] := by
  intro s
  induction s with
  | nil => simp [splitLines]
  | cons c cs ih =>
    by_cases h : c = '\n'
    · simp [splitLines, h]
    · rcases hsc : splitLines cs with _ | ⟨l, ls⟩
      · exact absurd hsc ih
      · simp [splitLines, h, hsc]

theorem splitLines_no_newline : ∀ (l : PyStr), '\n' ∉ l → splitLines l = [l] := by
  intro l
  induction l with
  | nil => intro _; rfl
  | cons c cs ih =>
    intro h
    have hc : c ≠ '\n' := fun e => h (by rw [e]; exact List.mem_cons_self _ _)
    have hcs : '\n' ∉ cs := fun hm => h (List.mem_cons_of_mem _ hm)
    simp [splitLines, hc, ih hcs]

theorem splitLines_append : ∀ (x r : PyStr), '\n' ∉ x →
    ∃ hd tl, splitLines r = hd :: tl ∧ splitLines (x ++ r) = (x ++ hd) :: tl := by
  intro x
  induction x with
  | nil =>
    intro r _
    obtain ⟨hd, tl, he⟩ := List.exists_cons_of_ne_nil (splitLines_ne_nil r)
    exact ⟨hd, tl, he, by simpa using he⟩
  | cons c cs ih =>
    intro r h
    have hc : c ≠ '\n' := fun e => h (by rw [e]; exact List.mem_cons_self _ _)
    obtain ⟨hd, tl, h1, h2⟩ := ih r (fun hm => h (List.mem_cons_of_mem _ hm))
    refine ⟨hd, tl, h1, ?_⟩
    show splitLines (c :: (cs ++ r)) = ((c :: cs) ++ hd) :: tl
    simp [splitLines, hc, h2]

theorem splitLines_joinLines : ∀ (lines : List PyStr), lines ≠ [] →
    (∀ l ∈ lines, '\n' ∉ l) → splitLines (joinLines lines) = lines := by
  intro lines
  induction lines with
  | nil => intro h; exact absurd rfl h
  | cons l rest ih =>
    intro _ h
    cases rest with
    | nil => exact splitLines_no_newline l (h l (List.mem_cons_self _ _))
    | cons l' rest' =>
      show splitLines (l ++ '\n' :: joinLines (l' :: rest')) = l :: l' :: rest'
      obtain ⟨hd, tl, h1, h2⟩ :=
        splitLines_append l ('\n' :: joinLines (l' :: rest')) (h l (List.mem_cons_self _ _))
      have h3 : splitLines ('\n' :: joinLines (l' :: rest')) =
          [] :: splitLines (joinLines (l' :: rest')) := by simp [splitLines]
      rw [h3] at h1
      injection h1 with e1 e2
      rw [h2, ← e1, ← e2]
      simp [ih (by simp) (fun x hx => h x (List.mem_cons_of_mem _ hx))]

theorem renderFrom_ne_nil (k : Nat) (b : SceneBlock) (rest : List SceneBlock) :
    renderFrom k (b :: rest) ≠ [] := by
  show blockLines k b ++ _ ≠ []
  simp [blockLines]

theorem markerLine_no_newline (k : Nat) (b : SceneBlock) (hgh : goodLine b.head = true) :
    '\n' ∉ markerLine k b := by
  obtain ⟨-, -, hhnl⟩ := goodLine_spec hgh
  intro hmem
  have : '\n' ∈ "SCENE ".data ++ (natChars k ++ (':' :: ' ' :: b.head)) := hmem
  simp only [List.mem_append, List.mem_cons] at this
  rcases this with h5 | hnc | hcol | hsp | hhd
  · simp at h5
  · exact natChars_no_newline hnc rfl
  · simp at hcol
  · simp at hsp
  · exact hhnl hhd

theorem renderFrom_no_newline : ∀ (bs : List SceneBlock) (k : Nat),
    (∀ b ∈ bs, wfBlock b = true) → ∀ l ∈ renderFrom k bs, '\n' ∉ l := by
  intro bs
  induction bs with
  | nil => intro k _ l hl; simp [renderFrom] at hl
  | cons b rest ih =>
    intro k h l hl
    have hwfb := h b (List.mem_cons_self _ _)
    have hstep : renderFrom k (b :: rest) = blockLines k b ++ renderFrom (k + 1) rest := rfl
    rw [hstep] at hl
    rcases List.mem_append.mp hl with hl | hl
    · rcases List.mem_cons.mp hl with rfl | hl
      · exact markerLine_no_newline k b (wfBlock_spec hwfb).1
      · exact (goodLine_spec ((wfBlock_spec hwfb).2 l hl).1).2.2
    · exact ih (k + 1) (fun x hx => h x (List.mem_cons_of_mem _ hx)) l hl

theorem parsedScenes_render (bs : List SceneBlock) (hne : bs ≠ [])
    (hwf : ∀ b ∈ bs, wfBlock b = true) :
    parsedScenes (renderSceneText bs) = bs.map contentOf := by
  obtain ⟨b, rest, rfl⟩ := List.exists_cons_of_ne_nil hne
  show (if ((splitLines (renderSceneText (b :: rest))).foldl parseStep ⟨[], [], false⟩).started ∧
      ((splitLines (renderSceneText (b :: rest))).foldl parseStep ⟨[], [], false⟩).current ≠ [] then
    ((splitLines (renderSceneText (b :: rest))).foldl parseStep ⟨[], [], false⟩).scenes ++
      [pyStrip ((splitLines (renderSceneText (b :: rest))).foldl parseStep ⟨[], [], false⟩).current]
  else ((splitLines (renderSceneText (b :: rest))).foldl parseStep ⟨[], [], false⟩).scenes) =
    (b :: rest).map contentOf
  rw [show renderSceneText (b :: rest) = joinLines (renderFrom 1 (b :: rest)) from rfl,
    splitLines_joinLines _ (renderFrom_ne_nil 1 b rest) (renderFrom_no_newline _ 1 hwf)]
  have h := flushed_renderFrom (b :: rest) 1 ⟨[], [], false⟩ hwf
  simpa using h

/-! ## C2 — parser round trip on well-formed marker input -/

/-- C2: For every nonempty list of well-formed scene blocks —
rendered as a text with exactly `n` marker lines `SCENE 1:` … `SCENE
n:` each carrying nonempty content — the parser returns exactly `n`
strings, in order of appearance, each equal to the marked content
(`contentOf`: the colon remainder space-joined with the subsequent
non-marker non-empty lines). -/
theorem scene_parser_roundtrip (bs : List SceneBlock) (hne : bs ≠ [])
    (hwf : ∀ b ∈ bs, wfBlock b = true) :
    parse_scenes (renderSceneText bs) bs.length = bs.map contentOf := by
  unfold parse_scenes
  rw [parsedScenes_render bs hne hwf, padScenes_closed]
  simp

/-- Witness for C2 on two concrete blocks, with the expected output
spelled out. -/
theorem scene_parser_roundtrip_witness :
    parse_scenes (renderSceneText demoBlocks) 2 = demoBlocks.map contentOf ∧
    demoBlocks.map contentOf =
      ["A hero wakes.".data, "A journey begins. It is long.".data] :=
  ⟨scene_parser_roundtrip demoBlocks (by decide) (by decide), by decide⟩

/-! ## C3 — output length policy: placeholder fill and truncation -/

/-- C3: For every input text and requested `n ≥ 1` the parser
output has length exactly `n`; when only `k < n` scenes were parsed
the last `n - k` entries are the placeholders
`Scene <i> description not available.` for `i = k+1 … n`; when `k ≥ n`
scenes were parsed, the output is the first `n` parsed scenes in
order. -/
theorem parse_scenes_length_policy (text : PyStr) (n : Nat) (hn : 1 ≤ n) :
    (parse_scenes text n).length = n ∧
    ((parsedScenes text).length < n →
      parse_scenes text n =
        parsedScenes text ++
          (List.range' ((parsedScenes text).length + 1)
            (n - (parsedScenes text).length)).map placeholder) ∧
    (n ≤ (parsedScenes text).length →
      parse_scenes text n = (parsedScenes text).take n) := by
  refine ⟨parse_scenes_length text n, ?_, ?_⟩
  · intro hk
    unfold parse_scenes
    rw [padScenes_closed]
    have hlen : (parsedScenes text ++
        (List.range' ((parsedScenes text).length + 1)
          (n - (parsedScenes text).length)).map placeholder).length = n := by
      simp
      omega
    rw [List.take_of_length_le (Nat.le_of_eq hlen)]
  · intro hk
    unfold parse_scenes
    rw [padScenes_closed]
    have h0 : n - (parsedScenes text).length = 0 := by omega
    rw [h0]
    simp

/-- Witness for C3: one marker, `n = 3` — two placeholder scenes are
appended (shown both via the theorem and spelled out). -/
theorem parse_scenes_length_policy_witness :
    (parse_scenes "SCENE 1: solo".data 3).length = 3 ∧
    parse_scenes "SCENE 1: solo".data 3 =
      parsedScenes "SCENE 1: solo".data ++
        (List.range' ((parsedScenes "SCENE 1: solo".data).length + 1)
          (3 - (parsedScenes "SCENE 1: solo".data).length)).map placeholder ∧
    parse_scenes "SCENE 1: solo".data 3 =
      ["solo".data, "Scene 2 description not available.".data,
        "Scene 3 description not available.".data] :=
  ⟨(parse_scenes_length_policy "SCENE 1: solo".data 3 (by decide)).1,
   (parse_scenes_length_policy "SCENE 1: solo".data 3 (by decide)).2.1 (by decide),
   by decide⟩
